import Mathlib

/-!
Verification of the two-party authorization handshake implemented by
`TwentyOneService` (frontend service for the Twenty-One game contract).

The service is embedded shallowly: network effects (transaction build-and-simulate,
TTL calculation) become explicit function parameters, the wallet signing capability
becomes an `Option`-valued callback, thrown JavaScript exceptions become `Except`
errors, and the XDR/base64 transport layer (a faithful external bijection) is
represented by the structured `SorobanAuthorizationEntry` value itself.
-/

namespace TwentyOne

/-- The two limbs of an XDR `Int128Parts` value: `hi` is the signed high 64 bits,
`lo` the unsigned low 64 bits. -/
structure Int128Parts where
  hi : Int
  lo : Nat
  deriving DecidableEq, Repr

/-- The integer value carried by an `Int128Parts`. -/
def Int128Parts.val (p : Int128Parts) : Int := p.hi * 2 ^ 64 + (p.lo : Int)

/-- The Soroban values that appear as invocation arguments in this service. -/
inductive ScVal where
  | u32 (v : Nat)
  | i128 (p : Int128Parts)
  | scAddress (a : String)
  | scOther
  deriving DecidableEq, Repr

/-- Credentials of a `SorobanAuthorizationEntry`: either address credentials
(`sorobanCredentialsAddress`, carrying the signer address, the signature
expiration ledger and an optional signature) or source-account credentials
(`sorobanCredentialsSourceAccount`). -/
inductive Credentials where
  | address (addr : String) (signatureExpirationLedger : Nat) (signature : Option String)
  | sourceAccount
  deriving DecidableEq, Repr

/-- The root invocation function of an authorization entry: a contract function
call (name and ordered arguments) or a host function. -/
inductive AuthorizedFunction where
  | contractFn (functionName : String) (args : List ScVal)
  | createContractHostFn
  deriving DecidableEq, Repr

/-- One authorization entry: credentials plus the root invocation they cover. -/
structure SorobanAuthorizationEntry where
  credentials : Credentials
  rootInvocation : AuthorizedFunction
  deriving DecidableEq, Repr

/-- The game parameters `parseAuthEntry` extracts from an imported entry. -/
structure GameParams where
  sessionId : Nat
  player1 : String
  player1Points : Int
  deriving DecidableEq, Repr

/-- The distinct failure causes of `parseAuthEntry` (each is a thrown `Error`
in the source, re-wrapped by the outer catch). -/
inductive ParseErr where
  | unsupportedCredential (kind : String)
  | notContractFn
  | functionMismatch (name : String)
  | argCountMismatch (count : Nat)
  | argTypeMismatch
  deriving DecidableEq, Repr

/-- `TwentyOneService.parseAuthEntry`: decode an authorization entry and extract
game parameters.  Mirrors the source checks in order: credentials must be
address credentials, the root invocation must be a contract function named
`start_game` with exactly 2 arguments; the session id is read as a `u32` and the
points as the unsigned low 64 bits of an `i128` (`args[1].i128().lo().toBigInt()`
in the source). -/
def parseAuthEntry (e : SorobanAuthorizationEntry) : Except ParseErr GameParams :=
  match e.credentials with
  | .sourceAccount => .error (.unsupportedCredential "sorobanCredentialsSourceAccount")
  | .address player1 _ _ =>
    match e.rootInvocation with
    | .createContractHostFn => .error .notContractFn
    | .contractFn functionName args =>
      if functionName ≠ "start_game" then
        .error (.functionMismatch functionName)
      else if args.length ≠ 2 then
        .error (.argCountMismatch args.length)
      else
        match args with
        | [.u32 sessionId, .i128 p] => .ok ⟨sessionId, player1, (p.lo : Int)⟩
        | _ => .error .argTypeMismatch

/-- The decoded invocation name of an entry, when its root invocation is a
contract function. -/
def invocationNameOf (e : SorobanAuthorizationEntry) : Option String :=
  match e.rootInvocation with
  | .contractFn functionName _ => some functionName
  | .createContractHostFn => none

/-- The decoded argument count of an entry, when its root invocation is a
contract function. -/
def argCountOf (e : SorobanAuthorizationEntry) : Option Nat :=
  match e.rootInvocation with
  | .contractFn _ args => some args.length
  | .createContractHostFn => none

/-- The loop body predicate of the locator scan in `prepareStartGame`: an entry
matches when its credentials are address credentials whose address equals the
target; source-account credentials are skipped (`continue`). -/
def matchesPlayer1 (player1 : String) (e : SorobanAuthorizationEntry) : Bool :=
  match e.credentials with
  | .address a _ _ => a == player1
  | .sourceAccount => false

/-- The locator scan of `prepareStartGame` (the indexed `for` loop with `break`
on first match): first entry in list order with address credentials equal to the
target address. -/
def findPlayer1AuthEntry (authEntries : List SorobanAuthorizationEntry)
    (player1 : String) : Option SorobanAuthorizationEntry :=
  authEntries.find? (matchesPlayer1 player1)

/-- Network passphrase constant (from `@/utils/constants`; the frontend targets
Stellar testnet). Its concrete value is irrelevant to the properties proved here. -/
def NETWORK_PASSPHRASE : String := "Test SDF Network ; September 2015"

/-- Modelled from the spec: `MULTI_SIG_AUTH_TTL_MINUTES` is imported from
`@/utils/constants`, which is not among the provided sources. The source comment
on `prepareStartGame` ("Uses extended TTL (60 minutes) for multi-sig flow") and
the end-to-end scenario ("signs with a 60-minute TTL") fix it at 60. -/
def MULTI_SIG_AUTH_TTL_MINUTES : Nat := 60

/-- The result object returned by the wallet `signAuthEntry` capability:
an optional error plus the signed entry payload. -/
structure SignResult where
  error : Option String
  signedAuthEntry : String
  deriving Repr

/-- The data the signing callback in `prepareStartGame` passes to the wallet:
the canonical preimage (determined by the entry being authorized and the
`validUntilLedgerSeq` attached to it) together with the network passphrase and
the signer address options. -/
structure SignAuthEntryRequest where
  entry : SorobanAuthorizationEntry
  validUntilLedgerSeq : Nat
  networkPassphrase : String
  address : String

/-- The signer capability handed to `prepareStartGame`
(`Pick<ClientOptions, signTransaction | signAuthEntry>`): the `signAuthEntry`
member may be absent; when invoked it may raise (`Except.error`) or return a
`SignResult` that may itself carry an error. -/
structure Signer where
  signAuthEntry : Option (SignAuthEntryRequest → Except String SignResult)

/-- The ternary on `authTtlMinutes` in `prepareStartGame`:
`authTtlMinutes ? calculateValidUntilLedger(RPC_URL, authTtlMinutes)
: calculateValidUntilLedger(RPC_URL, MULTI_SIG_AUTH_TTL_MINUTES)`.
JavaScript truthiness makes a supplied value of `0` take the default branch. -/
def prepareValidUntil (calculateValidUntilLedger : Nat → Nat)
    (authTtlMinutes : Option Nat) : Nat :=
  match authTtlMinutes with
  | some m =>
    if m ≠ 0 then calculateValidUntilLedger m
    else calculateValidUntilLedger MULTI_SIG_AUTH_TTL_MINUTES
  | none => calculateValidUntilLedger MULTI_SIG_AUTH_TTL_MINUTES

/-- Boundary model of the SDK `authorizeEntry` success path: it preserves the
root invocation and, for address credentials, attaches the signature and sets
the signature expiration ledger to the supplied `validUntilLedgerSeq`. -/
def authorizeEntrySet (e : SorobanAuthorizationEntry) (validUntilLedgerSeq : Nat)
    (sig : String) : SorobanAuthorizationEntry :=
  match e.credentials with
  | .address a _ _ =>
    { e with credentials := .address a validUntilLedgerSeq (some sig) }
  | .sourceAccount => e

/-- The failure causes of `prepareStartGame` (each a thrown `Error` in the
source): missing simulation auth entries, no entry matching Player 1, missing
`signAuthEntry` capability, and a declined or failed wallet signature. -/
inductive PrepareErr where
  | noAuthEntries
  | notFound (player1 : String)
  | signerUnavailable
  | signingRejected (msg : String)
  deriving DecidableEq, Repr

/-- The arguments of a `start_game` invocation as the client builds it. -/
structure StartGameArgs where
  session_id : Nat
  player1 : String
  player2 : String
  player1_points : Int
  player2_points : Int
  deriving DecidableEq, Repr

/-- `TwentyOneService.prepareStartGame` (STEP 1, Player 1). The ledger client is
the `simulate` parameter: given the fee-paying public key and the `start_game`
arguments it returns the simulated auth-entry list, or `none` when
`tx.simulationData?.result?.auth` is absent. The TTL calculator is the
`calculateValidUntilLedger` parameter. The returned artifact is the signed
authorization entry (its base64 XDR rendering in the source). -/
def prepareStartGame
    (simulate : String → StartGameArgs → Option (List SorobanAuthorizationEntry))
    (calculateValidUntilLedger : Nat → Nat)
    (sessionId : Nat) (player1 player2 : String)
    (player1Points player2Points : Int)
    (player1Signer : Signer)
    (authTtlMinutes : Option Nat) :
    Except PrepareErr SorobanAuthorizationEntry :=
  match simulate player2 ⟨sessionId, player1, player2, player1Points, player2Points⟩ with
  | none => .error .noAuthEntries
  | some authEntries =>
    match findPlayer1AuthEntry authEntries player1 with
    | none => .error (.notFound player1)
    | some player1AuthEntry =>
      match player1Signer.signAuthEntry with
      | none => .error .signerUnavailable
      | some signFn =>
        match signFn ⟨player1AuthEntry,
            prepareValidUntil calculateValidUntilLedger authTtlMinutes,
            NETWORK_PASSPHRASE, player1⟩ with
        | .error msg => .error (.signingRejected msg)
        | .ok signResult =>
          match signResult.error with
          | some msg => .error (.signingRejected msg)
          | none => .ok (authorizeEntrySet player1AuthEntry
              (prepareValidUntil calculateValidUntilLedger authTtlMinutes)
              signResult.signedAuthEntry)

/-- The failure causes of `importAndSignAuthEntry`: a decode failure propagated
from `parseAuthEntry`, a rebuild/simulation failure, or an address mismatch on
merge. -/
inductive AssembleErr where
  | parseFailed (e : ParseErr)
  | simulationError
  | addressMismatch (addr : String)
  deriving DecidableEq, Repr

/-- Replace the first entry whose address credentials match `addr` with
`signedEntry`, leaving all other entries untouched. -/
def replaceFirstMatching (entries : List SorobanAuthorizationEntry) (addr : String)
    (signedEntry : SorobanAuthorizationEntry) : List SorobanAuthorizationEntry :=
  match entries with
  | [] => []
  | e :: rest =>
    if matchesPlayer1 addr e then signedEntry :: rest
    else e :: replaceFirstMatching rest addr signedEntry

/-- Modelled from the spec: `injectSignedAuthEntry` lives in
`@/utils/authEntryUtils`, which is not among the provided sources. Per the spec
(TransactionAssembler, `LocalBuilt → RemoteImported`): replace the stub entry
matching the remote signer address with the decoded signed entry; if the decoded
signer address does not correspond to any stub in the locally rebuilt bundle,
fail immediately with AddressMismatch and never merge anything. Local signing
and submission happen later (STEP 3, `finalizeStartGame`) and are outside the
merged-bundle result modelled here. -/
def injectSignedAuthEntry (localEntries : List SorobanAuthorizationEntry)
    (signedEntry : SorobanAuthorizationEntry) (remoteAddr : String) :
    Except AssembleErr (List SorobanAuthorizationEntry) :=
  if localEntries.any (matchesPlayer1 remoteAddr) then
    .ok (replaceFirstMatching localEntries remoteAddr signedEntry)
  else
    .error (.addressMismatch remoteAddr)

/-- The rebuilt transaction that `importAndSignAuthEntry` returns (as XDR in the
source): the fee-paying source account, the `start_game` arguments it was built
from, and its auth-entry list after the merge. -/
structure AssembledTx where
  feePayer : String
  args : StartGameArgs
  authEntries : List SorobanAuthorizationEntry
  deriving DecidableEq, Repr

/-- `TwentyOneService.importAndSignAuthEntry` (STEP 2, Player 2): parse the
imported artifact, rebuild the transaction with Player 2 as source using the
decoded `sessionId`, `player1` and `player1Points` together with the locally
supplied `player2` and `player2Points`, then merge the imported signed entry in
at the decoded signer address. -/
def importAndSignAuthEntry
    (simulate : String → StartGameArgs → Option (List SorobanAuthorizationEntry))
    (player1AuthEntry : SorobanAuthorizationEntry)
    (player2 : String) (player2Points : Int) :
    Except AssembleErr AssembledTx :=
  match parseAuthEntry player1AuthEntry with
  | .error e => .error (.parseFailed e)
  | .ok gameParams =>
    match simulate player2 ⟨gameParams.sessionId, gameParams.player1, player2,
        gameParams.player1Points, player2Points⟩ with
    | none => .error .simulationError
    | some entries =>
      match injectSignedAuthEntry entries player1AuthEntry gameParams.player1 with
      | .error e => .error e
      | .ok merged =>
        .ok ⟨player2, ⟨gameParams.sessionId, gameParams.player1, player2,
          gameParams.player1Points, player2Points⟩, merged⟩

/-- `TwentyOneService.getGame`: the whole query is wrapped in try/catch; the
outer `Except` layer is a thrown exception (simulation or call failure), the
inner one the contract `Result`. Every failure path returns `none` (null). -/
def getGame {α : Type} (simulateGetGame : Nat → Except String (Except String α))
    (sessionId : Nat) : Option α :=
  match simulateGetGame sessionId with
  | .error _ => none
  | .ok (.error _) => none
  | .ok (.ok g) => some g

/-- `TwentyOneService.getHandValue`: same shape as `getGame`, keyed by session
and player, returning the numeric hand value or `none` on any failure. -/
def getHandValue (simulateGetHandValue : Nat → String → Except String (Except String Nat))
    (sessionId : Nat) (player : String) : Option Nat :=
  match simulateGetHandValue sessionId player with
  | .error _ => none
  | .ok (.error _) => none
  | .ok (.ok v) => some v

/-- C9: for every input artifact whose credential kind is anything other than
AddressCredential, `parseAuthEntry` fails with an UnsupportedCredential error,
and no game parameters are extracted from it. -/
theorem unsupported_credential_rejected (root : AuthorizedFunction) :
    parseAuthEntry ⟨Credentials.sourceAccount, root⟩ =
      .error (.unsupportedCredential "sorobanCredentialsSourceAccount") := rfl

/-- C2: for every input artifact whose decoded invocation name differs from
`start_game`, or whose decoded argument count differs from 2, `parseAuthEntry`
fails with an error and produces no `GameParams` result. -/
theorem shape_rejection (e : SorobanAuthorizationEntry)
    (h : invocationNameOf e ≠ some "start_game" ∨ argCountOf e ≠ some 2) :
    (parseAuthEntry e).isOk = false := by
  obtain ⟨creds, root⟩ := e
  cases creds with
  | sourceAccount => rfl
  | address a sExp sig =>
    cases root with
    | createContractHostFn => rfl
    | contractFn functionName args =>
      by_cases hf : functionName = "start_game"
      · by_cases hl : args.length = 2
        · exfalso
          rcases h with h | h
          · exact h (by simp [invocationNameOf, hf])
          · exact h (by simp [argCountOf, hl])
        · simp only [parseAuthEntry]
          rw [if_neg (not_not_intro hf), if_pos hl]
          rfl
      · simp only [parseAuthEntry]
        rw [if_pos hf]
        rfl

/-- C2 witness: a concrete artifact naming the wrong invocation is rejected. -/
theorem shape_rejection_witness :
    (parseAuthEntry ⟨Credentials.address "GA" 0 none,
      AuthorizedFunction.contractFn "hit" []⟩).isOk = false :=
  shape_rejection ⟨Credentials.address "GA" 0 none,
    AuthorizedFunction.contractFn "hit" []⟩ (Or.inl (by decide))

/-- C3: the locator scan used by `prepareStartGame` is deterministic: (1) the
first matching entry in list order is returned, so in particular a list whose
unique match is `e` yields `e` wherever it sits; (2) source-account credential
entries are skipped without being inspected; (3) matching is exact address
equality on AddressCredential entries. -/
theorem locator_determinism (player1 : String) :
    (∀ (pre : List SorobanAuthorizationEntry) (e : SorobanAuthorizationEntry)
        (post : List SorobanAuthorizationEntry),
      matchesPlayer1 player1 e = true →
      (∀ e' ∈ pre, matchesPlayer1 player1 e' = false) →
      findPlayer1AuthEntry (pre ++ e :: post) player1 = some e) ∧
    (∀ (root : AuthorizedFunction) (rest : List SorobanAuthorizationEntry),
      findPlayer1AuthEntry (⟨Credentials.sourceAccount, root⟩ :: rest) player1 =
        findPlayer1AuthEntry rest player1) ∧
    (∀ e : SorobanAuthorizationEntry, matchesPlayer1 player1 e = true ↔
      ∃ sExp sig, e.credentials = Credentials.address player1 sExp sig) := by
  refine ⟨?_, ?_, ?_⟩
  · intro pre e post he hpre
    induction pre with
    | nil => exact List.find?_cons_of_pos post he
    | cons a as ih =>
      have ha : ¬ matchesPlayer1 player1 a = true := by
        simp [hpre a (by simp)]
      have step : findPlayer1AuthEntry (a :: (as ++ e :: post)) player1 =
          findPlayer1AuthEntry (as ++ e :: post) player1 :=
        List.find?_cons_of_neg _ ha
      rw [List.cons_append, step]
      exact ih (fun e' he' => hpre e' (by simp [he']))
  · intro root rest
    exact List.find?_cons_of_neg _ (by simp [matchesPlayer1])
  · intro e
    obtain ⟨creds, root⟩ := e
    cases creds with
    | sourceAccount => simp [matchesPlayer1]
    | address a sExp sig =>
      simp only [matchesPlayer1, beq_iff_eq]
      constructor
      · rintro rfl
        exact ⟨sExp, sig, rfl⟩
      · rintro ⟨s2, g2, hc⟩
        injection hc

/-- C3 witness: a concrete list with one source-account entry followed by the
unique matching entry locates the matching entry. -/
theorem locator_determinism_witness :
    findPlayer1AuthEntry
      [⟨Credentials.sourceAccount, AuthorizedFunction.createContractHostFn⟩,
        ⟨Credentials.address "GX" 0 none, AuthorizedFunction.createContractHostFn⟩]
      "GX" =
      some ⟨Credentials.address "GX" 0 none, AuthorizedFunction.createContractHostFn⟩ :=
  (locator_determinism "GX").1
    [⟨Credentials.sourceAccount, AuthorizedFunction.createContractHostFn⟩]
    ⟨Credentials.address "GX" 0 none, AuthorizedFunction.createContractHostFn⟩ []
    (by decide) (by decide)

/-- C4: whenever zero simulated auth entries match Player 1 — including the
case where the simulation produced no auth-entry list at all —
`prepareStartGame` fails (with the no-auth-entries or the not-found error) and
returns no artifact. -/
theorem locator_failure
    (simulate : String → StartGameArgs → Option (List SorobanAuthorizationEntry))
    (calcTTL : Nat → Nat) (sessionId : Nat) (player1 player2 : String)
    (player1Points player2Points : Int) (signer : Signer) (authTtlMinutes : Option Nat)
    (h : simulate player2 ⟨sessionId, player1, player2, player1Points, player2Points⟩
        = none ∨
      ∃ l, simulate player2 ⟨sessionId, player1, player2, player1Points, player2Points⟩
          = some l ∧ ∀ e ∈ l, matchesPlayer1 player1 e = false) :
    prepareStartGame simulate calcTTL sessionId player1 player2 player1Points
        player2Points signer authTtlMinutes = .error .noAuthEntries ∨
    prepareStartGame simulate calcTTL sessionId player1 player2 player1Points
        player2Points signer authTtlMinutes = .error (.notFound player1) := by
  rcases h with h | ⟨l, hl, hnone⟩
  · left
    simp [prepareStartGame, h]
  · right
    have hfind : findPlayer1AuthEntry l player1 = none := by
      rw [findPlayer1AuthEntry, List.find?_eq_none]
      intro x hx
      simp [hnone x hx]
    simp [prepareStartGame, hl, hfind]

/-- C4 witness: an empty simulated auth-entry list makes `prepareStartGame`
fail. -/
theorem locator_failure_witness :
    prepareStartGame (fun _ _ => some []) (fun m => m) 7 "GA" "GB" 1 2 ⟨none⟩ none =
        .error .noAuthEntries ∨
    prepareStartGame (fun _ _ => some []) (fun m => m) 7 "GA" "GB" 1 2 ⟨none⟩ none =
        .error (.notFound "GA") :=
  locator_failure (fun _ _ => some []) (fun m => m) 7 "GA" "GB" 1 2 ⟨none⟩ none
    (Or.inr ⟨[], rfl, by simp⟩)

/-- C10 (implicit): the read queries are total: `getGame` returns `none` on
every failure (thrown simulation error or contract-level error result) and only
returns a value the contract actually produced; likewise `getHandValue`. -/
theorem read_queries_total {α : Type}
    (simulateGetGame : Nat → Except String (Except String α))
    (simulateGetHandValue : Nat → String → Except String (Except String Nat))
    (sessionId : Nat) (player : String) :
    ((∀ g, simulateGetGame sessionId ≠ .ok (.ok g)) →
      getGame simulateGetGame sessionId = none) ∧
    (getGame simulateGetGame sessionId = none ∨
      ∃ g, simulateGetGame sessionId = .ok (.ok g) ∧
        getGame simulateGetGame sessionId = some g) ∧
    ((∀ v, simulateGetHandValue sessionId player ≠ .ok (.ok v)) →
      getHandValue simulateGetHandValue sessionId player = none) ∧
    (getHandValue simulateGetHandValue sessionId player = none ∨
      ∃ v, simulateGetHandValue sessionId player = .ok (.ok v) ∧
        getHandValue simulateGetHandValue sessionId player = some v) := by
  refine ⟨?_, ?_, ?_, ?_⟩
  · intro hno
    cases hsim : simulateGetGame sessionId with
    | error e => simp [getGame, hsim]
    | ok r =>
      cases r with
      | error e => simp [getGame, hsim]
      | ok g => exact absurd hsim (hno g)
  · cases hsim : simulateGetGame sessionId with
    | error e => exact Or.inl (by simp [getGame, hsim])
    | ok r =>
      cases r with
      | error e => exact Or.inl (by simp [getGame, hsim])
      | ok g => exact Or.inr ⟨g, rfl, by simp [getGame, hsim]⟩
  · intro hno
    cases hsim : simulateGetHandValue sessionId player with
    | error e => simp [getHandValue, hsim]
    | ok r =>
      cases r with
      | error e => simp [getHandValue, hsim]
      | ok v => exact absurd hsim (hno v)
  · cases hsim : simulateGetHandValue sessionId player with
    | error e => exact Or.inl (by simp [getHandValue, hsim])
    | ok r =>
      cases r with
      | error e => exact Or.inl (by simp [getHandValue, hsim])
      | ok v => exact Or.inr ⟨v, rfl, by simp [getHandValue, hsim]⟩

/-- C10 witness: a query whose simulation throws yields `none`. -/
theorem read_queries_total_witness :
    getGame (fun _ => (Except.error "rpc down" : Except String (Except String Nat))) 3
      = none :=
  (read_queries_total (fun _ => (Except.error "rpc down" : Except String (Except String Nat)))
      (fun _ _ => Except.error "rpc down") 3 "GA").1
    (fun _ h => Except.noConfusion h)

/-- C5: when the decoded signer address of the imported entry has no
corresponding stub in the locally rebuilt bundle, `importAndSignAuthEntry`
fails with AddressMismatch and returns no (partially merged) transaction.
The merge step is modelled from the spec since `@/utils/authEntryUtils` is not
among the provided sources. -/
theorem merge_address_safety
    (simulate : String → StartGameArgs → Option (List SorobanAuthorizationEntry))
    (artifact : SorobanAuthorizationEntry) (player2 : String) (player2Points : Int)
    (gp : GameParams) (entries : List SorobanAuthorizationEntry)
    (hparse : parseAuthEntry artifact = .ok gp)
    (hsim : simulate player2
      ⟨gp.sessionId, gp.player1, player2, gp.player1Points, player2Points⟩ = some entries)
    (hnostub : ∀ e ∈ entries, matchesPlayer1 gp.player1 e = false) :
    importAndSignAuthEntry simulate artifact player2 player2Points =
      .error (.addressMismatch gp.player1) := by
  have hany : entries.any (matchesPlayer1 gp.player1) = false := by
    rw [List.any_eq_false]
    intro x hx
    simp [hnostub x hx]
  simp [importAndSignAuthEntry, hparse, hsim, injectSignedAuthEntry, hany]

/-- C5 witness: a decodable signed entry for GP1 meets a rebuilt bundle with no
stubs and the merge fails with AddressMismatch. -/
theorem merge_address_safety_witness :
    importAndSignAuthEntry (fun _ _ => some [])
      ⟨Credentials.address "GP1" 100 (some "sig"),
        AuthorizedFunction.contractFn "start_game" [.u32 1, .i128 ⟨0, 5⟩]⟩ "GP2" 7 =
      .error (.addressMismatch "GP1") :=
  merge_address_safety (fun _ _ => some [])
    ⟨Credentials.address "GP1" 100 (some "sig"),
      AuthorizedFunction.contractFn "start_game" [.u32 1, .i128 ⟨0, 5⟩]⟩ "GP2" 7
    ⟨1, "GP1", 5⟩ [] rfl rfl (by simp)

/-- C6: whenever the signer capability is actually invoked (simulation yielded
entries and the locator found the Player 1 stub) and it raises or returns a
result carrying an error, `prepareStartGame` fails with a signing-rejected
error and returns no artifact. -/
theorem signing_rejection
    (simulate : String → StartGameArgs → Option (List SorobanAuthorizationEntry))
    (calcTTL : Nat → Nat) (sessionId : Nat) (player1 player2 : String)
    (player1Points player2Points : Int)
    (signFn : SignAuthEntryRequest → Except String SignResult)
    (authTtlMinutes : Option Nat)
    (authEntries : List SorobanAuthorizationEntry) (stub : SorobanAuthorizationEntry)
    (hsim : simulate player2
      ⟨sessionId, player1, player2, player1Points, player2Points⟩ = some authEntries)
    (hfind : findPlayer1AuthEntry authEntries player1 = some stub)
    (hfail :
      (∃ msg, signFn ⟨stub, prepareValidUntil calcTTL authTtlMinutes,
        NETWORK_PASSPHRASE, player1⟩ = .error msg) ∨
      (∃ r m, signFn ⟨stub, prepareValidUntil calcTTL authTtlMinutes,
        NETWORK_PASSPHRASE, player1⟩ = .ok r ∧ r.error = some m)) :
    ∃ msg, prepareStartGame simulate calcTTL sessionId player1 player2 player1Points
        player2Points ⟨some signFn⟩ authTtlMinutes = .error (.signingRejected msg) := by
  rcases hfail with ⟨msg, hm⟩ | ⟨r, m, hr, he⟩
  · exact ⟨msg, by simp [prepareStartGame, hsim, hfind, hm]⟩
  · exact ⟨m, by simp [prepareStartGame, hsim, hfind, hr, he]⟩

/-- C6 witness: a wallet that returns a declined result makes a concrete
`prepareStartGame` call fail with a signing-rejected error. -/
theorem signing_rejection_witness :
    ∃ msg, prepareStartGame
      (fun _ _ => some [⟨Credentials.address "GA" 0 none,
        AuthorizedFunction.createContractHostFn⟩])
      (fun m => m) 1 "GA" "GB" 1 2
      ⟨some (fun _ => Except.ok ⟨some "declined", ""⟩)⟩ none =
      .error (.signingRejected msg) :=
  signing_rejection
    (fun _ _ => some [⟨Credentials.address "GA" 0 none,
      AuthorizedFunction.createContractHostFn⟩])
    (fun m => m) 1 "GA" "GB" 1 2 (fun _ => Except.ok ⟨some "declined", ""⟩) none
    [⟨Credentials.address "GA" 0 none, AuthorizedFunction.createContractHostFn⟩]
    ⟨Credentials.address "GA" 0 none, AuthorizedFunction.createContractHostFn⟩
    rfl rfl (Or.inr ⟨⟨some "declined", ""⟩, "declined", rfl, rfl⟩)

/-- C7 (amended): a supplied nonzero duration is passed to the TTL calculator
exactly; when no duration is supplied, or the supplied duration is 0 (falsy in
the source ternary), the multi-sig default duration is used instead; on success
the signed entry carries exactly the so computed expiry ledger. -/
theorem ttl_passthrough_amended :
    (∀ (calcTTL : Nat → Nat) (m : Nat), m ≠ 0 →
      prepareValidUntil calcTTL (some m) = calcTTL m) ∧
    (∀ calcTTL : Nat → Nat,
      prepareValidUntil calcTTL none = calcTTL MULTI_SIG_AUTH_TTL_MINUTES) ∧
    (∀ calcTTL : Nat → Nat,
      prepareValidUntil calcTTL (some 0) = calcTTL MULTI_SIG_AUTH_TTL_MINUTES) ∧
    (∀ (simulate : String → StartGameArgs → Option (List SorobanAuthorizationEntry))
        (calcTTL : Nat → Nat) (sessionId : Nat) (player1 player2 : String)
        (player1Points player2Points : Int) (signer : Signer)
        (authTtlMinutes : Option Nat) (E : SorobanAuthorizationEntry),
      prepareStartGame simulate calcTTL sessionId player1 player2 player1Points
        player2Points signer authTtlMinutes = .ok E →
      ∃ sig, E.credentials = Credentials.address player1
        (prepareValidUntil calcTTL authTtlMinutes) (some sig)) := by
  refine ⟨?_, ?_, ?_, ?_⟩
  · intro calcTTL m hm
    simp [prepareValidUntil, hm]
  · intro calcTTL
    rfl
  · intro calcTTL
    rfl
  · intro simulate calcTTL sid p1 p2 pp1 pp2 signer ttl E hE
    simp only [prepareStartGame] at hE
    cases hsim : simulate p2 ⟨sid, p1, p2, pp1, pp2⟩ with
    | none => simp [hsim] at hE
    | some entries =>
      simp only [hsim] at hE
      cases hfind : findPlayer1AuthEntry entries p1 with
      | none => simp [hfind] at hE
      | some stub =>
        simp only [hfind] at hE
        cases hsf : signer.signAuthEntry with
        | none => simp [hsf] at hE
        | some signFn =>
          simp only [hsf] at hE
          cases hres : signFn ⟨stub, prepareValidUntil calcTTL ttl,
              NETWORK_PASSPHRASE, p1⟩ with
          | error msg => simp [hres] at hE
          | ok r =>
            simp only [hres] at hE
            cases herr : r.error with
            | some msg => simp [herr] at hE
            | none =>
              simp only [herr] at hE
              have hm : matchesPlayer1 p1 stub = true := by
                have hfind' : List.find? (matchesPlayer1 p1) entries = some stub := hfind
                exact List.find?_some hfind'
              obtain ⟨creds, root⟩ := stub
              cases creds with
              | sourceAccount => exact absurd hm (by simp [matchesPlayer1])
              | address a sExp sig0 =>
                have ha : a = p1 := by
                  simpa [matchesPlayer1] using hm
                subst ha
                refine ⟨r.signedAuthEntry, ?_⟩
                injection hE with hEeq
                rw [← hEeq]
                rfl

/-- C7 witness: a supplied duration of 30 minutes reaches the TTL calculator
unchanged. -/
theorem ttl_passthrough_amended_witness :
    prepareValidUntil (fun m => m + 5) (some 30) = 35 :=
  ttl_passthrough_amended.1 (fun m => m + 5) 30 (by decide)

/-- C7 counterexample: a call that supplies the duration 0 signs with the
default 60-minute expiry (here `calcTTL` is the identity, so the claimed
behavior would attach expiry `calcTTL 0 = 0`, but the code attaches 60). -/
theorem ttl_passthrough_cex :
    prepareStartGame
      (fun _ _ => some [⟨Credentials.address "GA" 0 none,
        AuthorizedFunction.createContractHostFn⟩])
      (fun m => m) 1 "GA" "GB" 1 2 ⟨some (fun _ => Except.ok ⟨none, "s"⟩)⟩ (some 0) =
      .ok (authorizeEntrySet ⟨Credentials.address "GA" 0 none,
        AuthorizedFunction.createContractHostFn⟩ 60 "s") ∧
    authorizeEntrySet ⟨Credentials.address "GA" 0 none,
        AuthorizedFunction.createContractHostFn⟩ 60 "s" ≠
      authorizeEntrySet ⟨Credentials.address "GA" 0 none,
        AuthorizedFunction.createContractHostFn⟩ ((fun m => m) 0) "s" := by
  exact ⟨rfl, by decide⟩

/-- C8: `prepareStartGame` consults the ledger client only at the request built
from Player 2 as fee payer and the directly supplied arguments; and on success
`importAndSignAuthEntry` returns a transaction rebuilt with Player 2 as fee
payer from exactly the decoded sessionId, player1 and player1Points plus the
locally supplied player2 and player2Points. -/
theorem rebuild_from_decoded_args :
    (∀ (sim sim' : String → StartGameArgs → Option (List SorobanAuthorizationEntry))
        (calcTTL : Nat → Nat) (sessionId : Nat) (player1 player2 : String)
        (player1Points player2Points : Int) (signer : Signer) (ttl : Option Nat),
      sim player2 ⟨sessionId, player1, player2, player1Points, player2Points⟩ =
        sim' player2 ⟨sessionId, player1, player2, player1Points, player2Points⟩ →
      prepareStartGame sim calcTTL sessionId player1 player2 player1Points
          player2Points signer ttl =
        prepareStartGame sim' calcTTL sessionId player1 player2 player1Points
          player2Points signer ttl) ∧
    (∀ (sim : String → StartGameArgs → Option (List SorobanAuthorizationEntry))
        (artifact : SorobanAuthorizationEntry) (player2 : String)
        (player2Points : Int) (gp : GameParams) (tx : AssembledTx),
      parseAuthEntry artifact = .ok gp →
      importAndSignAuthEntry sim artifact player2 player2Points = .ok tx →
      tx.feePayer = player2 ∧
      tx.args = ⟨gp.sessionId, gp.player1, player2, gp.player1Points, player2Points⟩) := by
  constructor
  · intro sim sim' calcTTL sid p1 p2 pp1 pp2 signer ttl hagree
    unfold prepareStartGame
    rw [hagree]
  · intro sim artifact p2 pp2 gp tx hparse himp
    simp only [importAndSignAuthEntry, hparse] at himp
    cases hsim : sim p2 ⟨gp.sessionId, gp.player1, p2, gp.player1Points, pp2⟩ with
    | none => simp [hsim] at himp
    | some entries =>
      simp only [hsim] at himp
      cases hinj : injectSignedAuthEntry entries artifact gp.player1 with
      | error e => simp [hinj] at himp
      | ok merged =>
        simp only [hinj] at himp
        injection himp with h
        rw [← h]
        exact ⟨rfl, rfl⟩

/-- C8 witness: a concrete successful import yields a transaction whose fee
payer and arguments are exactly the decoded-plus-local ones. -/
theorem rebuild_from_decoded_args_witness :
    AssembledTx.feePayer ⟨"GP2", ⟨1, "GP1", "GP2", 5, 7⟩,
      [⟨Credentials.address "GP1" 100 (some "sig"),
        AuthorizedFunction.contractFn "start_game" [.u32 1, .i128 ⟨0, 5⟩]⟩]⟩ = "GP2" ∧
    AssembledTx.args ⟨"GP2", ⟨1, "GP1", "GP2", 5, 7⟩,
      [⟨Credentials.address "GP1" 100 (some "sig"),
        AuthorizedFunction.contractFn "start_game" [.u32 1, .i128 ⟨0, 5⟩]⟩]⟩ =
      ⟨1, "GP1", "GP2", 5, 7⟩ :=
  rebuild_from_decoded_args.2
    (fun _ _ => some [⟨Credentials.address "GP1" 0 none,
      AuthorizedFunction.createContractHostFn⟩])
    ⟨Credentials.address "GP1" 100 (some "sig"),
      AuthorizedFunction.contractFn "start_game" [.u32 1, .i128 ⟨0, 5⟩]⟩
    "GP2" 7 ⟨1, "GP1", 5⟩
    ⟨"GP2", ⟨1, "GP1", "GP2", 5, 7⟩,
      [⟨Credentials.address "GP1" 100 (some "sig"),
        AuthorizedFunction.contractFn "start_game" [.u32 1, .i128 ⟨0, 5⟩]⟩]⟩
    rfl rfl

/-- C1 (amended): for every signed entry `prepareStartGame` produces from a
`start_game` stub, decoding with `parseAuthEntry` recovers the invocation name,
the sessionId and the signer address exactly; the i128 points value is
recovered exactly whenever its high limb is 0, i.e. the value lies in
`[0, 2^64)` (the decoder reads only the unsigned low 64 bits). -/
theorem roundtrip_amended
    (simulate : String → StartGameArgs → Option (List SorobanAuthorizationEntry))
    (calcTTL : Nat → Nat) (sessionId : Nat) (player1 player2 : String)
    (player1Points player2Points : Int)
    (signFn : SignAuthEntryRequest → Except String SignResult)
    (authTtlMinutes : Option Nat)
    (authEntries : List SorobanAuthorizationEntry)
    (sidE sExp : Nat) (sig0 : Option String) (pts : Int128Parts) (r : SignResult)
    (hsim : simulate player2
      ⟨sessionId, player1, player2, player1Points, player2Points⟩ = some authEntries)
    (hfind : findPlayer1AuthEntry authEntries player1 = some
      ⟨Credentials.address player1 sExp sig0,
        AuthorizedFunction.contractFn "start_game" [.u32 sidE, .i128 pts]⟩)
    (hsign : signFn ⟨⟨Credentials.address player1 sExp sig0,
        AuthorizedFunction.contractFn "start_game" [.u32 sidE, .i128 pts]⟩,
        prepareValidUntil calcTTL authTtlMinutes, NETWORK_PASSPHRASE, player1⟩ = .ok r)
    (hok : r.error = none)
    (hlow : pts.hi = 0) :
    ∃ E, prepareStartGame simulate calcTTL sessionId player1 player2 player1Points
        player2Points ⟨some signFn⟩ authTtlMinutes = .ok E ∧
      parseAuthEntry E = .ok ⟨sidE, player1, Int128Parts.val pts⟩ := by
  refine ⟨authorizeEntrySet
    ⟨Credentials.address player1 sExp sig0,
      AuthorizedFunction.contractFn "start_game" [.u32 sidE, .i128 pts]⟩
    (prepareValidUntil calcTTL authTtlMinutes) r.signedAuthEntry, ?_, ?_⟩
  · simp [prepareStartGame, hsim, hfind, hsign, hok]
  · show parseAuthEntry ⟨Credentials.address player1
        (prepareValidUntil calcTTL authTtlMinutes) (some r.signedAuthEntry),
        AuthorizedFunction.contractFn "start_game" [.u32 sidE, .i128 pts]⟩ = _
    simp [parseAuthEntry, Int128Parts.val, hlow]

/-- C1 witness: a concrete 10-point entry round-trips exactly. -/
theorem roundtrip_amended_witness :
    ∃ E, prepareStartGame
      (fun _ _ => some [⟨Credentials.address "GP1" 0 none,
        AuthorizedFunction.contractFn "start_game" [.u32 42, .i128 ⟨0, 10⟩]⟩])
      (fun m => m + 100) 42 "GP1" "GP2" 10 15
      ⟨some (fun _ => Except.ok ⟨none, "s1"⟩)⟩ none = .ok E ∧
      parseAuthEntry E = .ok ⟨42, "GP1", Int128Parts.val ⟨0, 10⟩⟩ :=
  roundtrip_amended
    (fun _ _ => some [⟨Credentials.address "GP1" 0 none,
      AuthorizedFunction.contractFn "start_game" [.u32 42, .i128 ⟨0, 10⟩]⟩])
    (fun m => m + 100) 42 "GP1" "GP2" 10 15
    (fun _ => Except.ok ⟨none, "s1"⟩) none
    [⟨Credentials.address "GP1" 0 none,
      AuthorizedFunction.contractFn "start_game" [.u32 42, .i128 ⟨0, 10⟩]⟩]
    42 0 none ⟨0, 10⟩ ⟨none, "s1"⟩ rfl rfl rfl rfl rfl

/-- C1 counterexample: an entry whose i128 points argument carries the value
`2^64` (high limb 1, low limb 0) is signed and exported by `prepareStartGame`,
but decoding recovers points 0, not `2^64`: the decoded arguments are not
exactly those of the exported entry. -/
theorem roundtrip_cex :
    prepareStartGame
      (fun _ _ => some [⟨Credentials.address "GP1" 0 none,
        AuthorizedFunction.contractFn "start_game" [.u32 42, .i128 ⟨1, 0⟩]⟩])
      (fun m => m + 100) 42 "GP1" "GP2" 10 15
      ⟨some (fun _ => Except.ok ⟨none, "s1"⟩)⟩ none =
      .ok ⟨Credentials.address "GP1" 160 (some "s1"),
        AuthorizedFunction.contractFn "start_game" [.u32 42, .i128 ⟨1, 0⟩]⟩ ∧
    parseAuthEntry ⟨Credentials.address "GP1" 160 (some "s1"),
        AuthorizedFunction.contractFn "start_game" [.u32 42, .i128 ⟨1, 0⟩]⟩ =
      .ok ⟨42, "GP1", 0⟩ ∧
    Int128Parts.val ⟨1, 0⟩ = 2 ^ 64 ∧ (0 : Int) ≠ 2 ^ 64 := by
  exact ⟨rfl, rfl, by decide, by decide⟩

end TwentyOne
